import Mathlib

/-!
Verification development for the PoetryNetPackets repository (src/main.py).

The single source file implements a pipeline: a producer captures network
packets, extracts flat metadata records, and appends them to a shared
buffer; a cooperative consumer task polls the buffer once per tick and,
when the buffer holds at least 5 records, builds a prompt, awaits a
text-generation call, archives the result keyed by a timestamp string,
and clears the buffer.  On shutdown the archive is serialized to JSON.

The embedding below translates the source into Lean:
  - pure functions (extract_packet_data, craft_prompt, generate_poetry,
    save_archive) become Lean functions;
  - the asyncio concurrency is modelled as a labelled transition system:
    every block of Python code between two await points runs atomically
    on the event loop, so each such block is one transition label, and
    interleaving happens only at the await points;
  - Python exceptions become Except / Option values;
  - the real-valued capture clock (time.time) is modelled as an abstract
    Nat tick, and Python int as Lean Int.
-/

namespace PoetryNetPackets

/-- The PoetryStyle enum from the source. -/
inductive PoetryStyle
  | pessoa
  | whitman
  | dickinson
deriving DecidableEq

/-- The .value attribute of the PoetryStyle enum members. -/
def PoetryStyle.value : PoetryStyle → String
  | .pessoa => "pessoa"
  | .whitman => "whitman"
  | .dickinson => "dickinson"

/-- The PacketData dataclass.  The length field is a Python int (Lean Int);
the timestamp field is time.time(), modelled as an abstract Nat tick. -/
structure PacketData where
  src_ip : String
  dest_ip : String
  protocol : String
  length : Int
  timestamp : Nat
  port_src : Option Int
  port_dst : Option Int
  flags : Option String
deriving DecidableEq

/-- The PoetryArchiveEntry dataclass.  The packets field holds the
field-maps vars(p) of the drained records; a field-map determines the
record, so it is modelled as the record itself. -/
structure PoetryArchiveEntry where
  poetry : String
  packets : List PacketData
  style : String
  generated_at : String
deriving DecidableEq

/-- The transport-layer sub-object packet[protocol]: srcport / dstport
attributes (string-valued in pyshark, parsed by int()), and an optional
flags attribute read by getattr with default None. -/
structure TransportLayer where
  srcport : Option String
  dstport : Option String
  flags : Option String
deriving DecidableEq

/-- An opaque captured pyshark packet as extract_packet_data probes it:
an optional ip layer carrying (src, dst), an optional transport_layer
label, the length attribute (absent or a string for int()), and the
indexable layers packet[protocol]. -/
structure RawPacket where
  ip : Option (String × String)
  transport_layer : Option String
  length : Option String
  layers : List (String × TransportLayer)
deriving DecidableEq

/-- A nonempty all-digit character list folded into a Nat; anything
else is rejected (helper for pyInt). -/
def pyIntDigits (cs : List Char) : Option Nat :=
  if cs ≠ [] ∧ cs.all Char.isDigit then
    some (cs.foldl (fun acc c => acc * 10 + (c.toNat - 48)) 0)
  else none

/-- Model of the Python int(str) conversion: optional surrounding
whitespace, an optional sign, then one or more decimal digits; anything
else raises ValueError, modelled as none. -/
def pyInt (s : String) : Option Int :=
  let cs := ((s.data.dropWhile Char.isWhitespace).reverse.dropWhile
      Char.isWhitespace).reverse
  match cs with
  | '-' :: ds => (pyIntDigits ds).map (fun n => -(n : Int))
  | '+' :: ds => (pyIntDigits ds).map (fun n => (n : Int))
  | ds => (pyIntDigits ds).map (fun n => (n : Int))

/-- The try-block of extract_packet_data, before the except handler:
an Except value whose error branch is the exception that the handler
catches.  Mirrors the source line by line: addresses default to
"Unknown" without an ip layer, the protocol label defaults to "Unknown"
without a transport layer, length is int(packet.length), and ports are
parsed only when the protocol label is not "Unknown"; flags is read with
getattr(layer, flags-attribute, None) and so never raises. -/
def extract_packet_data_ex (packet : RawPacket) (now : Nat) :
    Except String PacketData :=
  let src_ip := match packet.ip with
    | some pair => pair.1
    | none => "Unknown"
  let dest_ip := match packet.ip with
    | some pair => pair.2
    | none => "Unknown"
  let protocol := match packet.transport_layer with
    | some t => t
    | none => "Unknown"
  match packet.length with
  | none => .error "Packet has no attribute length"
  | some lengthStr =>
    match pyInt lengthStr with
    | none => .error "invalid literal for int(): length"
    | some length =>
      if protocol != "Unknown" then
        match packet.layers.lookup protocol with
        | none => .error "KeyError: no such layer"
        | some layer =>
          match layer.srcport with
          | none => .error "Layer has no attribute srcport"
          | some sp =>
            match pyInt sp with
            | none => .error "invalid literal for int(): srcport"
            | some port_src =>
              match layer.dstport with
              | none => .error "Layer has no attribute dstport"
              | some dp =>
                match pyInt dp with
                | none => .error "invalid literal for int(): dstport"
                | some port_dst =>
                  .ok { src_ip := src_ip, dest_ip := dest_ip,
                        protocol := protocol, length := length,
                        timestamp := now, port_src := some port_src,
                        port_dst := some port_dst, flags := layer.flags }
      else
        .ok { src_ip := src_ip, dest_ip := dest_ip, protocol := protocol,
              length := length, timestamp := now, port_src := none,
              port_dst := none, flags := none }

/-- extract_packet_data: the try-block wrapped in the except handler.
Returns the Optional[PacketData] result paired with the list of log
lines emitted (logger.error on failure). -/
def extract_packet_data (packet : RawPacket) (now : Nat) :
    Option PacketData × List String :=
  match extract_packet_data_ex packet now with
  | .ok d => (some d, [])
  | .error e => (none, ["Error extracting packet data: " ++ e])

/-- The base_context dictionary of craft_prompt: the fixed style
preamble texts (Python triple-quoted strings, including their leading
newline and indentation). -/
def base_context : PoetryStyle → String
  | .pessoa =>
      "\n                Channel the introspective, philosophical voice of Fernando Pessoa\x27s heteronyms.\n                Contemplate each packet as a fleeting moment of consciousness traversing the ether.\n                Reflect on the metaphysical nature of data moving through intangible spaces.\n            "
  | .whitman =>
      "\n                Embrace Walt Whitman\x27s grand, expansive style.\n                Treat each packet as part of a cosmic tapestry of modern life.\n                Weave the digital flow into humanity\x27s universal song.\n            "
  | .dickinson =>
      "\n                Employ Emily Dickinson\x27s delicate yet potent verse.\n                Observe the micro-moments of transmission with a keen, almost reverent eye.\n                Harness unusual punctuation and subtle metaphor to illuminate digital rhythms.\n            "

/-- Python str() applied to an Optional[int] as an f-string renders it:
None prints as the four letters None, an int prints in decimal. -/
def pyStrOptInt : Option Int → String
  | none => "None"
  | some n => toString n

/-- The per-packet description f-string of craft_prompt. -/
def packetDescription (packet : PacketData) : String :=
  "Data from " ++ packet.src_ip ++ ":" ++ pyStrOptInt packet.port_src ++
  " to " ++ packet.dest_ip ++ ":" ++ pyStrOptInt packet.port_dst ++
  ", " ++ toString packet.length ++ " bytes via " ++ packet.protocol ++ "."

/-- The packet_descriptions list accumulated by the loop in
craft_prompt, in batch order. -/
def packet_descriptions (packets : List PacketData) : List String :=
  packets.map packetDescription

/-- craft_prompt: the final f-string, concatenating the style preamble,
the newline-joined packet descriptions, and the closing instruction
naming the style. -/
def craft_prompt (packets : List PacketData) (style : PoetryStyle) : String :=
  "\n        " ++ base_context style ++
  "\n\n        Consider the following network movements:\n        " ++
  String.intercalate "\n" (packet_descriptions packets) ++
  "\n\n        Transform these digital flows into a poem in the style of " ++
  style.value ++
  ".\n        Contemplate the symbolic meaning of packets dancing between nodes and\n        the resonance of ephemeral data in our digital consciousness.\n        "

/-- generate_poetry as a function of the outcome of the external
completion call: on success the response text is stripped and returned;
any exception is caught and the fixed fallback string is returned. -/
def generate_poetry : Except String String → String
  | .ok text => text.trim
  | .error _ => "Error generating poetic response"

/-- Python dict assignment d[k] = v: if the key is present its value is
overwritten in place (insertion order kept), otherwise the pair is
appended.  The archive dict poetry_archive is modelled as an ordered
association list with this update. -/
def dictInsert (d : List (String × PoetryArchiveEntry)) (k : String)
    (v : PoetryArchiveEntry) : List (String × PoetryArchiveEntry) :=
  if d.any (fun p => p.1 == k) then
    d.map (fun p => if p.1 == k then (k, v) else p)
  else
    d ++ [(k, v)]

/-- Where the buffer_processor coroutine stands: at the top of its loop
(between sleep ticks), or suspended at the await of generate_poetry
with the prompt it already built from the buffer. -/
inductive ConsumerPhase
  | polling
  | generating (prompt : String)
deriving DecidableEq

/-- The shared mutable state of the program: the packet buffer, the
poetry archive, and the consumer coroutine phase. -/
structure SysState where
  packet_buffer : List PacketData
  poetry_archive : List (String × PoetryArchiveEntry)
  consumer : ConsumerPhase
deriving DecidableEq

/-- The atomic event-loop blocks of the program, one label each:
  - append: the producer loop extracted a record and appended it
    (runs between two producer awaits, atomic on the event loop);
  - poll: the buffer_processor woke from its sleep, checked the
    threshold and, if met, built the prompt and issued the
    generate_poetry await (everything up to that await is one atomic
    block);
  - finish: the awaited generation call completed with the given
    service outcome; the block from the await to the next sleep runs:
    the archive entry is built from the CURRENT buffer, inserted under
    the timestamp t, and the buffer is cleared. -/
inductive Label
  | append (p : PacketData)
  | poll
  | finish (result : Except String String) (t : String)

/-- One transition of the system.  none means the labelled event cannot
occur in this state (the consumer cannot poll while suspended at the
generation await, and a generation call cannot finish unless one is in
flight); appends are always enabled, since the producer task keeps
running while the consumer awaits. -/
def step (style : PoetryStyle) (s : SysState) : Label → Option SysState
  | .append p =>
      some { s with packet_buffer := s.packet_buffer ++ [p] }
  | .poll =>
      match s.consumer with
      | .polling =>
          if s.packet_buffer.length ≥ 5 then
            some { s with consumer := .generating (craft_prompt s.packet_buffer style) }
          else
            some s
      | .generating _ => none
  | .finish result t =>
      match s.consumer with
      | .generating _ =>
          some { packet_buffer := [],
                 poetry_archive := dictInsert s.poetry_archive t
                   { poetry := generate_poetry result,
                     packets := s.packet_buffer,
                     style := style.value,
                     generated_at := t },
                 consumer := .polling }
      | .polling => none

/-- A run of the system along a list of labels. -/
def run (style : PoetryStyle) (s : SysState) : List Label → Option SysState
  | [] => some s
  | l :: ls =>
      match step style s l with
      | some s2 => run style s2 ls
      | none => none

/-- The JSON values that json.dump writes for this program: strings,
ints, null, arrays and (ordered) objects.  The persisted artifact is
modelled as this tree; the textual encoding and decoding of such trees
is the json library, an external collaborator. -/
inductive Json
  | str (s : String)
  | num (n : Int)
  | null
  | arr (xs : List Json)
  | obj (fields : List (String × Json))

/-- The field list of a JSON object (empty for non-objects). -/
def Json.objFields : Json → List (String × Json)
  | .obj fields => fields
  | _ => []

/-- Field lookup in a JSON object. -/
def Json.getField (j : Json) (k : String) : Option Json :=
  (j.objFields).lookup k

/-- How json.dump serializes an Optional[int] field of vars(p). -/
def optIntJson : Option Int → Json
  | none => .null
  | some n => .num n

/-- How json.dump serializes an Optional[str] field of vars(p). -/
def optStrJson : Option String → Json
  | none => .null
  | some s => .str s

/-- The JSON object json.dump writes for one field-map vars(p) in the
packets list of an archive entry, in dataclass field order. -/
def packetToJson (p : PacketData) : Json :=
  .obj [("src_ip", .str p.src_ip),
        ("dest_ip", .str p.dest_ip),
        ("protocol", .str p.protocol),
        ("length", .num p.length),
        ("timestamp", .num (p.timestamp : Int)),
        ("port_src", optIntJson p.port_src),
        ("port_dst", optIntJson p.port_dst),
        ("flags", optStrJson p.flags)]

/-- The inner dictionary save_archive builds for one archive entry. -/
def entryToJson (entry : PoetryArchiveEntry) : Json :=
  .obj [("poetry", .str entry.poetry),
        ("packets", .arr (entry.packets.map packetToJson)),
        ("style", .str entry.style),
        ("generated_at", .str entry.generated_at)]

/-- save_archive: the archive_dict comprehension followed by json.dump;
the whole artifact is one JSON object mapping each timestamp key to the
serialized entry, replacing any previous artifact content entirely. -/
def save_archive (archive : List (String × PoetryArchiveEntry)) : Json :=
  .obj (archive.map (fun kv => (kv.1, entryToJson kv.2)))

/-- Sequencing of a fallible reader over a list (the shape of a loop
that json.load-style reading performs over arrays and objects). -/
def readList (f : α → Option β) : List α → Option (List β)
  | [] => some []
  | a :: as =>
      match f a with
      | none => none
      | some b =>
          match readList f as with
          | none => none
          | some bs => some (b :: bs)

/-- Modelled from the spec: reading a persisted optional-int field
(null or a number) back. -/
def jsonToOptInt : Json → Option (Option Int)
  | .null => some none
  | .num n => some (some n)
  | _ => none

/-- Modelled from the spec: reading a persisted optional-string field
(null or a string) back. -/
def jsonToOptStr : Json → Option (Option String)
  | .null => some none
  | .str s => some (some s)
  | _ => none

/-- Modelled from the spec: reading one persisted packet field-map back
into a record.  The repository has no loader; §8 of the spec requires
that a persisted-then-reloaded archive reproduce the entries
field-for-field, so the reload is the evident reading of the artifact
layout that save_archive writes. -/
def jsonToPacket : Json → Option PacketData
  | .obj [("src_ip", .str a), ("dest_ip", .str b), ("protocol", .str c),
          ("length", .num l), ("timestamp", .num ts), ("port_src", ps),
          ("port_dst", pd), ("flags", fl)] =>
      match jsonToOptInt ps, jsonToOptInt pd, jsonToOptStr fl with
      | some ps2, some pd2, some fl2 =>
          some ⟨a, b, c, l, ts.toNat, ps2, pd2, fl2⟩
      | _, _, _ => none
  | _ => none

/-- Modelled from the spec: reading one persisted archive entry back
(the inverse reading of the object entryToJson writes). -/
def jsonToEntry : Json → Option PoetryArchiveEntry
  | .obj [("poetry", .str po), ("packets", .arr pk), ("style", .str st),
          ("generated_at", .str g)] =>
      match readList jsonToPacket pk with
      | none => none
      | some packets => some ⟨po, packets, st, g⟩
  | _ => none

/-- Modelled from the spec: reloading the persisted artifact into an
in-memory archive (the inverse reading of the object save_archive
writes). -/
def load_archive : Json → Option (List (String × PoetryArchiveEntry))
  | .obj fields =>
      readList (fun kv =>
        match jsonToEntry kv.2 with
        | none => none
        | some e => some (kv.1, e)) fields
  | _ => none

/-- The archive key consistency invariant: every entry is stored under
its own generated_at timestamp. -/
def ArchiveInv (a : List (String × PoetryArchiveEntry)) : Prop :=
  ∀ kv ∈ a, kv.2.generated_at = kv.1

/-! Concrete sample records used by evaluation theorems and witnesses. -/

/-- Sample record 1. -/
def p1 : PacketData := ⟨"10.0.0.1", "10.0.0.9", "TCP", 60, 0, some 80, some 443, none⟩

/-- Sample record 2. -/
def p2 : PacketData := ⟨"10.0.0.2", "10.0.0.9", "TCP", 61, 1, some 81, some 443, none⟩

/-- Sample record 3. -/
def p3 : PacketData := ⟨"10.0.0.3", "10.0.0.9", "UDP", 62, 2, some 82, some 53, none⟩

/-- Sample record 4. -/
def p4 : PacketData := ⟨"10.0.0.4", "10.0.0.9", "UDP", 63, 3, some 83, some 53, none⟩

/-- Sample record 5. -/
def p5 : PacketData := ⟨"10.0.0.5", "10.0.0.9", "TCP", 64, 4, some 84, some 443, none⟩

/-- Sample record 6, cast as the record the producer appends while a
drain is in flight. -/
def p6 : PacketData := ⟨"10.0.0.6", "10.0.0.9", "TCP", 65, 5, some 85, some 443, none⟩

/-- A state whose buffer holds exactly the five records p1 … p5, with
an empty archive and the consumer at the top of its polling loop. -/
def state5 : SysState := ⟨[p1, p2, p3, p4, p5], [], .polling⟩

/-- A state with six records already buffered at the poll tick. -/
def state6 : SysState := ⟨[p1, p2, p3, p4, p5, p6], [], .polling⟩

/-- A state whose consumer is suspended at the generation await. -/
def stateGen : SysState := ⟨[], [], .generating "prompt"⟩

/-- Claim C1: the batch archived by a drain is claimed to be a frozen
snapshot of the buffer at the moment take-and-clear began, indivisible
with respect to concurrent appends.  The code violates this: the drain
reads the buffer for the prompt, suspends at the generate_poetry await,
and only AFTER the await reads the buffer again to build the archived
batch and clears it.  This theorem evaluates the failing interleaving:
from a buffer holding exactly p1 … p5, the consumer polls and starts
generating, the producer appends p6 during the await, and on completion
the archived batch is [p1, …, p5, p6] — it contains p6, a record
appended while the drain was in flight, even though p6 was not in the
buffer when take-and-clear began. -/
theorem C1_snapshot_violated :
    run PoetryStyle.pessoa state5
        [Label.poll, Label.append p6, Label.finish (Except.error "boom") "T1"] =
      some ⟨[], [("T1", ⟨"Error generating poetic response",
                         [p1, p2, p3, p4, p5, p6], "pessoa", "T1"⟩)], .polling⟩ ∧
    p6 ∈ [p1, p2, p3, p4, p5, p6] ∧ p6 ∉ state5.packet_buffer := by
  refine ⟨by decide, by decide, by decide⟩

/-- Claim C2 counterexample: the claim says every drained batch has
length exactly 5.  With six records buffered at the poll tick (the
producer appends roughly ten records per one-second poll interval), the
single drain archives a batch of length 6. -/
theorem C2_counterexample :
    run PoetryStyle.pessoa state6 [Label.poll, Label.finish (Except.error "boom") "T2"] =
      some ⟨[], [("T2", ⟨"Error generating poetic response",
                         [p1, p2, p3, p4, p5, p6], "pessoa", "T2"⟩)], .polling⟩ ∧
    state6.packet_buffer.length = 6 := by
  refine ⟨by decide, by decide⟩

/-- Claim C2 (amended): a polling consumer drains exactly when the
buffer size is at least the threshold 5 (a tick below the threshold
changes nothing), immediately after the drain the buffer is empty, and
the archived batch is the full buffer contents, whose length is at
least 5 — not exactly 5. -/
theorem C2_amended (style : PoetryStyle) (s : SysState)
    (r : Except String String) (t : String)
    (h1 : s.consumer = .polling) :
    (s.packet_buffer.length < 5 → step style s Label.poll = some s) ∧
    (5 ≤ s.packet_buffer.length →
      run style s [Label.poll, Label.finish r t] =
        some ⟨[], dictInsert s.poetry_archive t
                ⟨generate_poetry r, s.packet_buffer, style.value, t⟩,
              .polling⟩ ∧
      5 ≤ s.packet_buffer.length) := by
  constructor
  · intro h
    have hn : ¬ (5 ≤ s.packet_buffer.length) := by omega
    simp [step, h1, hn]
  · intro h
    refine ⟨?_, h⟩
    simp [run, step, h1, h]

/-- Witness for C2_amended at the concrete state state5. -/
theorem C2_amended_witness :
    state5.consumer = .polling ∧
    ((state5.packet_buffer.length < 5 →
        step PoetryStyle.pessoa state5 Label.poll = some state5) ∧
     (5 ≤ state5.packet_buffer.length →
        run PoetryStyle.pessoa state5 [Label.poll, Label.finish (Except.error "boom") "T1"] =
          some ⟨[], dictInsert state5.poetry_archive "T1"
                  ⟨generate_poetry (Except.error "boom"), state5.packet_buffer,
                   PoetryStyle.pessoa.value, "T1"⟩,
                .polling⟩ ∧
        5 ≤ state5.packet_buffer.length)) :=
  ⟨rfl, C2_amended PoetryStyle.pessoa state5 (Except.error "boom") "T1" rfl⟩

/-- Claim C3 counterexample: the claim says the consumer does not wait
for the generation call before resuming its polling.  In the code the
consumer awaits generate_poetry inline: while the call is in flight no
poll event is possible (the coroutine is suspended at the await), while
producer appends remain possible (the call runs in a worker thread via
asyncio.to_thread, so the event loop is free). -/
theorem C3_counterexample :
    step PoetryStyle.pessoa stateGen Label.poll = none ∧
    step PoetryStyle.pessoa stateGen (Label.append p1) =
      some ⟨[p1], [], .generating "prompt"⟩ :=
  ⟨rfl, rfl⟩

/-- Claim C3 (amended): while a generation call is in flight the
producer is never blocked — appends stay enabled and take effect — but
the consumer waits: no poll event can occur until the call completes. -/
theorem C3_amended (style : PoetryStyle) (s : SysState) (pr : String)
    (h : s.consumer = .generating pr) :
    step style s Label.poll = none ∧
    ∀ p, step style s (Label.append p) =
      some { s with packet_buffer := s.packet_buffer ++ [p] } := by
  constructor
  · simp [step, h]
  · intro p
    rfl

/-- Witness for C3_amended at the concrete state stateGen. -/
theorem C3_amended_witness :
    stateGen.consumer = .generating "prompt" ∧
    (step PoetryStyle.pessoa stateGen Label.poll = none ∧
     ∀ p, step PoetryStyle.pessoa stateGen (Label.append p) =
       some { stateGen with packet_buffer := stateGen.packet_buffer ++ [p] }) :=
  ⟨rfl, C3_amended PoetryStyle.pessoa stateGen "prompt" rfl⟩

/-- Claim C7: any failed generation attempt returns the fixed fallback
string "Error generating poetic response" instead of propagating the
failure, and the batch that triggered the attempt is still archived:
the completion step inserts an archive entry whether the outcome is ok
or error, here shown for an arbitrary error. -/
theorem C7_fallback_archived (style : PoetryStyle) (s : SysState)
    (pr e t : String)
    (h : s.consumer = .generating pr) :
    generate_poetry (Except.error e) = "Error generating poetic response" ∧
    step style s (Label.finish (Except.error e) t) =
      some ⟨[], dictInsert s.poetry_archive t
              ⟨"Error generating poetic response", s.packet_buffer, style.value, t⟩,
            .polling⟩ := by
  constructor
  · rfl
  · simp [step, h, generate_poetry]

/-- Witness for C7_fallback_archived at the concrete state stateGen. -/
theorem C7_fallback_archived_witness :
    stateGen.consumer = .generating "prompt" ∧
    (generate_poetry (Except.error "boom") = "Error generating poetic response" ∧
     step PoetryStyle.pessoa stateGen (Label.finish (Except.error "boom") "T1") =
       some ⟨[], dictInsert stateGen.poetry_archive "T1"
               ⟨"Error generating poetic response", stateGen.packet_buffer,
                PoetryStyle.pessoa.value, "T1"⟩,
             .polling⟩) :=
  ⟨rfl, C7_fallback_archived PoetryStyle.pessoa stateGen "prompt" "boom" "T1" rfl⟩

/-- The extraction failure modes enumerated by the (amended) claim C4,
written from the claim text: a missing length, a non-integer length, or
— when the protocol label is resolved to a known transport — a missing
layer entry, a missing port sub-field, or a non-integer port.  A
missing flags sub-field is NOT a failure (the code reads it with a
getattr default). -/
def extractionFailure (p : RawPacket) : Bool :=
  match p.length with
  | none => true
  | some l =>
    match pyInt l with
    | none => true
    | some _ =>
      match p.transport_layer with
      | none => false
      | some proto =>
        if proto == "Unknown" then false
        else
          match p.layers.lookup proto with
          | none => true
          | some layer =>
            match layer.srcport with
            | none => true
            | some sp =>
              match pyInt sp with
              | none => true
              | some _ =>
                match layer.dstport with
                | none => true
                | some dp => (pyInt dp).isNone

/-- Raw packet with ip and TCP layers, both ports present, and no
flags attribute on the transport layer. -/
def rawNoFlags : RawPacket :=
  ⟨some ("10.0.0.1", "10.0.0.2"), some "TCP", some "60",
   [("TCP", ⟨some "80", some "443", none⟩)]⟩

/-- Raw packet with no ip layer but a resolved TCP transport layer. -/
def rawNoIp : RawPacket :=
  ⟨none, some "TCP", some "60", [("TCP", ⟨some "80", some "443", some "0x18"⟩)]⟩

/-- Raw packet with neither an ip layer nor a transport layer. -/
def rawPlain : RawPacket := ⟨none, none, some "60", []⟩

/-- Claim C4 counterexample: the claim lists a missing flags sub-field
(with the protocol resolved) among the parse failures that yield None.
On a packet whose TCP layer has ports but no flags attribute the
extractor succeeds: it returns a record (with the flags field absent)
and emits no log line, because the code reads flags via getattr with a
None default instead of indexing it. -/
theorem C4_counterexample :
    (rawNoFlags.layers.lookup "TCP").map TransportLayer.flags = some none ∧
    extract_packet_data rawNoFlags 0 =
      (some ⟨"10.0.0.1", "10.0.0.2", "TCP", 60, 0, some 80, some 443, none⟩, []) := by
  refine ⟨by decide, by decide⟩

/-- Claim C4 (amended): the extractor is a total function into an
optional record; it returns none exactly on the enumerated parse
failures — missing length, non-integer length, or, when the protocol
is resolved, a missing layer, a missing port sub-field, or a
non-integer port (a missing flags sub-field does not fail) — and a log
line is emitted exactly when the result is none, so no exception ever
escapes. -/
theorem C4_total_none_iff_failure (p : RawPacket) (now : Nat) :
    ((extract_packet_data p now).1 = none ↔ extractionFailure p = true) ∧
    ((extract_packet_data p now).2 ≠ [] ↔ (extract_packet_data p now).1 = none) := by
  constructor
  · rcases p with ⟨ip, tl, len, layers⟩
    cases len with
    | none => simp [extract_packet_data, extract_packet_data_ex, extractionFailure]
    | some l =>
      cases hL : pyInt l with
      | none => simp [extract_packet_data, extract_packet_data_ex, extractionFailure, hL]
      | some length =>
        cases tl with
        | none => simp [extract_packet_data, extract_packet_data_ex, extractionFailure, hL]
        | some proto =>
          by_cases hp : proto = "Unknown"
          · subst hp
            simp [extract_packet_data, extract_packet_data_ex, extractionFailure, hL]
          · have hb : (proto == "Unknown") = false := by
              simpa using hp
            cases hLk : layers.lookup proto with
            | none =>
              simp [extract_packet_data, extract_packet_data_ex, extractionFailure,
                    hL, hb, hp, hLk]
            | some layer =>
              cases hsp : layer.srcport with
              | none =>
                simp [extract_packet_data, extract_packet_data_ex, extractionFailure,
                      hL, hb, hp, hLk, hsp]
              | some sp =>
                cases hspi : pyInt sp with
                | none =>
                  simp [extract_packet_data, extract_packet_data_ex, extractionFailure,
                        hL, hb, hp, hLk, hsp, hspi]
                | some nsp =>
                  cases hdp : layer.dstport with
                  | none =>
                    simp [extract_packet_data, extract_packet_data_ex, extractionFailure,
                          hL, hb, hp, hLk, hsp, hspi, hdp]
                  | some dp =>
                    cases hdpi : pyInt dp with
                    | none =>
                      simp [extract_packet_data, extract_packet_data_ex, extractionFailure,
                            hL, hb, hp, hLk, hsp, hspi, hdp, hdpi]
                    | some ndp =>
                      simp [extract_packet_data, extract_packet_data_ex, extractionFailure,
                            hL, hb, hp, hLk, hsp, hspi, hdp, hdpi]
  · cases h : extract_packet_data_ex p now with
    | ok d => simp [extract_packet_data, h]
    | error e => simp [extract_packet_data, h]

/-- Witness for C4_total_none_iff_failure at the concrete packet
rawNoFlags. -/
theorem C4_total_none_iff_failure_witness :
    ((extract_packet_data rawNoFlags 0).1 = none ↔ extractionFailure rawNoFlags = true) ∧
    ((extract_packet_data rawNoFlags 0).2 ≠ [] ↔ (extract_packet_data rawNoFlags 0).1 = none) :=
  C4_total_none_iff_failure rawNoFlags 0

/-- Claim C5 counterexample: the claim says every record successfully
extracted from a packet lacking network-layer fields has absent ports.
A packet with no ip layer but a resolved TCP transport layer extracts
successfully to a record whose addresses are the sentinel but whose
ports are present. -/
theorem C5_counterexample :
    rawNoIp.ip = none ∧
    extract_packet_data rawNoIp 0 =
      (some ⟨"Unknown", "Unknown", "TCP", 60, 0, some 80, some 443, some "0x18"⟩, []) := by
  refine ⟨rfl, by decide⟩

/-- Claim C5 (amended): for every packet lacking BOTH the network-layer
and the transport-layer fields, a successfully extracted record has
both addresses equal to the sentinel "Unknown" and absent ports.
Lacking the network layer alone fixes the addresses only: ports come
from the transport layer. -/
theorem C5_unknown_addresses (p : RawPacket) (now : Nat) (r : PacketData)
    (h1 : p.ip = none) (h2 : p.transport_layer = none)
    (h3 : (extract_packet_data p now).1 = some r) :
    r.src_ip = "Unknown" ∧ r.dest_ip = "Unknown" ∧
    r.port_src = none ∧ r.port_dst = none := by
  rcases p with ⟨ip, tl, len, layers⟩
  cases h1
  cases h2
  cases len with
  | none => simp [extract_packet_data, extract_packet_data_ex] at h3
  | some l =>
    cases hL : pyInt l with
    | none => simp [extract_packet_data, extract_packet_data_ex, hL] at h3
    | some length =>
      simp [extract_packet_data, extract_packet_data_ex, hL] at h3
      cases h3
      exact ⟨rfl, rfl, rfl, rfl⟩

/-- Witness for C5_unknown_addresses at the concrete packet rawPlain. -/
theorem C5_unknown_addresses_witness :
    rawPlain.ip = none ∧ rawPlain.transport_layer = none ∧
    (extract_packet_data rawPlain 0).1 =
      some ⟨"Unknown", "Unknown", "Unknown", 60, 0, none, none, none⟩ ∧
    ("Unknown" : String) = "Unknown" ∧ ("Unknown" : String) = "Unknown" ∧
    (none : Option Int) = none ∧ (none : Option Int) = none :=
  ⟨rfl, rfl, by decide,
   C5_unknown_addresses rawPlain 0
     ⟨"Unknown", "Unknown", "Unknown", 60, 0, none, none, none⟩ rfl rfl (by decide)⟩

/-- A record with absent ports, as extracted from a packet without a
resolved transport layer. -/
def rNoPorts : PacketData := ⟨"10.0.0.1", "10.0.0.2", "TCP", 60, 7, none, none, none⟩

/-- Claim C6 counterexample: the claim says a record with absent ports
renders with the ports omitted, the line ending in via <protocol>.
The f-string renders an absent port as the text None, so the line reads
<src>:None … <dst>:None rather than omitting the ports. -/
theorem C6_counterexample :
    packetDescription rNoPorts =
      "Data from 10.0.0.1:None to 10.0.0.2:None, 60 bytes via TCP." ∧
    packetDescription rNoPorts ≠ "Data from 10.0.0.1 to 10.0.0.2, 60 bytes via TCP." := by
  refine ⟨by decide, by decide⟩

/-- Claim C6 (amended): the prompt builder is a pure function producing
one description line per record, in batch order; a record with absent
ports renders each port as the text None (the line does not crash and
still ends in via <protocol>.); every line ends in via <protocol>.; and
the prompt is the fixed style preamble, the newline-joined lines, and
the closing instruction naming the style, concatenated in that order. -/
theorem C6_prompt_lines (packets : List PacketData) (style : PoetryStyle) :
    (packet_descriptions packets).length = packets.length ∧
    (∀ i : Nat, (packet_descriptions packets)[i]? = (packets[i]?).map packetDescription) ∧
    (∀ p : PacketData, p.port_src = none → p.port_dst = none →
      packetDescription p =
        "Data from " ++ p.src_ip ++ ":" ++ "None" ++ " to " ++ p.dest_ip ++ ":" ++ "None" ++
        ", " ++ toString p.length ++ " bytes via " ++ p.protocol ++ ".") ∧
    (∀ p : PacketData,
      packetDescription p =
        ("Data from " ++ p.src_ip ++ ":" ++ pyStrOptInt p.port_src ++ " to " ++ p.dest_ip ++
         ":" ++ pyStrOptInt p.port_dst ++ ", " ++ toString p.length ++ " bytes ") ++
        ("via " ++ (p.protocol ++ "."))) ∧
    (craft_prompt packets style =
      ("\n        " ++ base_context style ++
       "\n\n        Consider the following network movements:\n        ") ++
      String.intercalate "\n" (packet_descriptions packets) ++
      ("\n\n        Transform these digital flows into a poem in the style of " ++
       style.value ++
       ".\n        Contemplate the symbolic meaning of packets dancing between nodes and\n        the resonance of ephemeral data in our digital consciousness.\n        ")) := by
  refine ⟨by simp [packet_descriptions], ?_, ?_, ?_, ?_⟩
  · intro i
    simp [packet_descriptions, List.getElem?_map]
  · intro p h1 h2
    simp [packetDescription, h1, h2, pyStrOptInt]
  · intro p
    have h : ∀ X : String, (" bytes via " : String) ++ X = " bytes " ++ ("via " ++ X) := by
      intro X
      rw [← String.append_assoc]
      rfl
    simp [packetDescription, String.append_assoc, h]
  · simp [craft_prompt, String.append_assoc]

/-- Witness for C6_prompt_lines at the concrete batch [rNoPorts]. -/
theorem C6_prompt_lines_witness :
    ((packet_descriptions [rNoPorts]).length = [rNoPorts].length ∧
     (∀ i : Nat, (packet_descriptions [rNoPorts])[i]? = ([rNoPorts][i]?).map packetDescription) ∧
     (∀ p : PacketData, p.port_src = none → p.port_dst = none →
       packetDescription p =
         "Data from " ++ p.src_ip ++ ":" ++ "None" ++ " to " ++ p.dest_ip ++ ":" ++ "None" ++
         ", " ++ toString p.length ++ " bytes via " ++ p.protocol ++ ".") ∧
     (∀ p : PacketData,
       packetDescription p =
         ("Data from " ++ p.src_ip ++ ":" ++ pyStrOptInt p.port_src ++ " to " ++ p.dest_ip ++
          ":" ++ pyStrOptInt p.port_dst ++ ", " ++ toString p.length ++ " bytes ") ++
         ("via " ++ (p.protocol ++ "."))) ∧
     (craft_prompt [rNoPorts] PoetryStyle.pessoa =
       ("\n        " ++ base_context PoetryStyle.pessoa ++
        "\n\n        Consider the following network movements:\n        ") ++
       String.intercalate "\n" (packet_descriptions [rNoPorts]) ++
       ("\n\n        Transform these digital flows into a poem in the style of " ++
        PoetryStyle.pessoa.value ++
        ".\n        Contemplate the symbolic meaning of packets dancing between nodes and\n        the resonance of ephemeral data in our digital consciousness.\n        "))) :=
  C6_prompt_lines [rNoPorts] PoetryStyle.pessoa

/-- Helper: a list with no entry keyed k filters to nothing on k. -/
theorem filter_key_eq_nil (d : List (String × PoetryArchiveEntry)) (k : String)
    (h : ∀ p ∈ d, (p.1 == k) = false) :
    d.filter (fun kv => kv.1 == k) = [] := by
  induction d with
  | nil => rfl
  | cons a d ih =>
    have ha := h a (by simp)
    rw [List.filter_cons_of_neg (by simp [ha])]
    exact ih (fun p hp => h p (List.mem_cons_of_mem a hp))

/-- Helper: the overwrite map of dictInsert is the identity on a list
with no entry keyed k. -/
theorem map_overwrite_eq_self (d : List (String × PoetryArchiveEntry)) (k : String)
    (v : PoetryArchiveEntry) (h : ∀ p ∈ d, (p.1 == k) = false) :
    d.map (fun p => if p.1 == k then (k, v) else p) = d := by
  induction d with
  | nil => rfl
  | cons a d ih =>
    have ha := h a (by simp)
    rw [List.map_cons, if_neg (by simp [ha]),
        ih (fun p hp => h p (List.mem_cons_of_mem a hp))]

/-- Helper: when the keys of d are distinct, a Python dict assignment
d[k] = v leaves exactly one entry keyed k, namely (k, v). -/
theorem filter_dictInsert (d : List (String × PoetryArchiveEntry)) (k : String)
    (v : PoetryArchiveEntry) (h : (d.map Prod.fst).Nodup) :
    (dictInsert d k v).filter (fun kv => kv.1 == k) = [(k, v)] := by
  induction d with
  | nil =>
    show List.filter _ ([] ++ [(k, v)]) = _
    simp
  | cons a d ih =>
    rw [List.map_cons, List.nodup_cons] at h
    obtain ⟨hnotin, hnd⟩ := h
    by_cases hak : (a.1 == k) = true
    · have hk : a.1 = k := by simpa using hak
      have hnok : ∀ p ∈ d, (p.1 == k) = false := by
        intro p hp
        have hpk : p.1 ≠ k := by
          intro he
          apply hnotin
          rw [hk, ← he]
          exact List.mem_map_of_mem Prod.fst hp
        simpa using hpk
      have hall : ((a :: d).any (fun p => p.1 == k)) = true := by
        simp [List.any_cons, hak]
      unfold dictInsert
      rw [if_pos hall, List.map_cons, if_pos hak,
          map_overwrite_eq_self d k v hnok,
          List.filter_cons_of_pos (by simp),
          filter_key_eq_nil d k hnok]
    · have hak' : (a.1 == k) = false := Bool.eq_false_iff.mpr hak
      by_cases hany : (d.any (fun p => p.1 == k)) = true
      · have hall : ((a :: d).any (fun p => p.1 == k)) = true := by
          simp [List.any_cons, hany]
        have hd : dictInsert d k v = d.map (fun p => if p.1 == k then (k, v) else p) := by
          unfold dictInsert
          rw [if_pos hany]
        unfold dictInsert
        rw [if_pos hall, List.map_cons, if_neg (by simp [hak']),
            List.filter_cons_of_neg (by simp [hak']), ← hd]
        exact ih hnd
      · have hany' : (d.any (fun p => p.1 == k)) = false := Bool.eq_false_iff.mpr hany
        have hall : ((a :: d).any (fun p => p.1 == k)) = false := by
          simp [List.any_cons, hak', hany']
        have hd : dictInsert d k v = d ++ [(k, v)] := by
          unfold dictInsert
          rw [if_neg (by simp [hany'])]
        unfold dictInsert
        rw [if_neg (by simp [hall]), List.cons_append,
            List.filter_cons_of_neg (by simp [hak']), ← hd]
        exact ih hnd

/-- Helper: a Python dict assignment preserves distinctness of keys. -/
theorem dictInsert_keys_nodup (d : List (String × PoetryArchiveEntry)) (k : String)
    (v : PoetryArchiveEntry) (h : (d.map Prod.fst).Nodup) :
    ((dictInsert d k v).map Prod.fst).Nodup := by
  unfold dictInsert
  by_cases hany : (d.any (fun p => p.1 == k)) = true
  · rw [if_pos hany]
    have hkeys : (d.map (fun p => if p.1 == k then (k, v) else p)).map Prod.fst
        = d.map Prod.fst := by
      rw [List.map_map]
      apply List.map_congr_left
      intro p _
      by_cases hpk : (p.1 == k) = true
      · have : p.1 = k := by simpa using hpk
        simp [Function.comp, hpk, this]
      · have hpk' : (p.1 == k) = false := by simpa using hpk
        simp [Function.comp, hpk']
    rw [hkeys]
    exact h
  · have hany' : (d.any (fun p => p.1 == k)) = false := Bool.eq_false_iff.mpr hany
    rw [if_neg (by simp [hany']), List.map_append, List.map_cons, List.map_nil]
    rw [List.nodup_append]
    refine ⟨h, List.nodup_singleton k, ?_⟩
    intro x hx hx'
    have hxk : x = k := by simpa using hx'
    obtain ⟨p, hp, hpf⟩ := List.mem_map.mp hx
    have hptrue : (d.any (fun p => p.1 == k)) = true :=
      List.any_eq_true.mpr ⟨p, hp, by simp [hpf, hxk]⟩
    rw [hany'] at hptrue
    exact Bool.noConfusion hptrue

/-- Helper: a run along appended label lists is the bind of the runs. -/
theorem run_append_labels (style : PoetryStyle) (s : SysState) (L1 L2 : List Label) :
    run style s (L1 ++ L2) = (run style s L1).bind (fun s2 => run style s2 L2) := by
  induction L1 generalizing s with
  | nil => rfl
  | cons l ls ih =>
    cases hstep : step style s l with
    | none =>
      show (match step style s l with
            | some s2 => run style s2 (ls ++ L2)
            | none => none) =
           (match step style s l with
            | some s2 => run style s2 ls
            | none => none).bind (fun s2 => run style s2 L2)
      rw [hstep]
      rfl
    | some s2 =>
      show (match step style s l with
            | some s2 => run style s2 (ls ++ L2)
            | none => none) =
           (match step style s l with
            | some s2 => run style s2 ls
            | none => none).bind (fun s2 => run style s2 L2)
      rw [hstep]
      exact ih s2

/-- Helper: a block of producer appends extends the buffer in order and
touches nothing else. -/
theorem run_appends (style : PoetryStyle) (ps : List PacketData) (s : SysState) :
    run style s (ps.map Label.append) =
      some { s with packet_buffer := s.packet_buffer ++ ps } := by
  induction ps generalizing s with
  | nil =>
    show some s = some { s with packet_buffer := s.packet_buffer ++ [] }
    rw [List.append_nil]
  | cons p ps ih =>
    show run style { s with packet_buffer := s.packet_buffer ++ [p] }
        (ps.map Label.append) = _
    rw [ih, List.append_assoc]
    rfl

/-- Claim C8: archive insertion under an existing key overwrites with
no merge.  Starting from a polling state with distinct archive keys and
a full buffer, run a complete drain archived under timestamp t, then
append a second batch qs of at least 5 records, then a second complete
drain whose timestamp resolves to the same t: the final archive holds
exactly one entry keyed t, and it carries the second batch qs with the
second generation outcome. -/
theorem C8_overwrite (style : PoetryStyle) (s : SysState) (t : String)
    (r1 r2 : Except String String) (qs : List PacketData)
    (h1 : s.consumer = .polling) (h2 : 5 ≤ s.packet_buffer.length)
    (h3 : (s.poetry_archive.map Prod.fst).Nodup) (h4 : 5 ≤ qs.length) :
    ∃ s' : SysState,
      run style s ([Label.poll, Label.finish r1 t] ++ qs.map Label.append ++
          [Label.poll, Label.finish r2 t]) = some s' ∧
      s'.poetry_archive.filter (fun kv => kv.1 == t) =
        [(t, ⟨generate_poetry r2, qs, style.value, t⟩)] := by
  rw [run_append_labels, run_append_labels]
  have hfirst : run style s [Label.poll, Label.finish r1 t] =
      some ⟨[], dictInsert s.poetry_archive t
              ⟨generate_poetry r1, s.packet_buffer, style.value, t⟩, .polling⟩ := by
    simp [run, step, h1, h2]
  rw [hfirst, Option.some_bind, run_appends, Option.some_bind]
  have hsecond : run style
      (⟨[] ++ qs, dictInsert s.poetry_archive t
          ⟨generate_poetry r1, s.packet_buffer, style.value, t⟩, .polling⟩ : SysState)
      [Label.poll, Label.finish r2 t] =
      some ⟨[], dictInsert (dictInsert s.poetry_archive t
              ⟨generate_poetry r1, s.packet_buffer, style.value, t⟩) t
              ⟨generate_poetry r2, qs, style.value, t⟩, .polling⟩ := by
    simp [run, step, h4]
  rw [hsecond]
  refine ⟨_, rfl, ?_⟩
  exact filter_dictInsert _ t _ (dictInsert_keys_nodup _ t _ h3)

/-- Witness for C8_overwrite at a concrete two-drain trace. -/
theorem C8_overwrite_witness :
    state5.consumer = .polling ∧ 5 ≤ state5.packet_buffer.length ∧
    (state5.poetry_archive.map Prod.fst).Nodup ∧
    5 ≤ ([p6, p6, p6, p6, p6] : List PacketData).length ∧
    ∃ s' : SysState,
      run PoetryStyle.pessoa state5
          ([Label.poll, Label.finish (Except.error "e1") "T0"] ++
            ([p6, p6, p6, p6, p6] : List PacketData).map Label.append ++
            [Label.poll, Label.finish (Except.error "e2") "T0"]) = some s' ∧
      s'.poetry_archive.filter (fun kv => kv.1 == "T0") =
        [("T0", ⟨generate_poetry (Except.error "e2"), [p6, p6, p6, p6, p6],
                 PoetryStyle.pessoa.value, "T0"⟩)] :=
  ⟨rfl, by decide, by simp [state5], by decide,
   C8_overwrite PoetryStyle.pessoa state5 "T0" (Except.error "e1") (Except.error "e2")
     [p6, p6, p6, p6, p6] rfl (by decide) (by simp [state5]) (by decide)⟩



/-- Helper: reading back one serialized packet field-map recovers the
record. -/
theorem jsonToPacket_packetToJson (p : PacketData) :
    jsonToPacket (packetToJson p) = some p := by
  rcases p with ⟨a, b, c, l, ts, ps, pd, fl⟩
  cases ps <;> cases pd <;> cases fl <;>
    simp [packetToJson, jsonToPacket, jsonToOptInt, jsonToOptStr,
      optIntJson, optStrJson]

/-- Helper: a fallible reader that inverts the writer pointwise inverts
it on whole lists. -/
theorem readList_map {α β : Type} (f : β → Option α) (g : α → β) (l : List α)
    (h : ∀ a ∈ l, f (g a) = some a) :
    readList f (l.map g) = some l := by
  induction l with
  | nil => rfl
  | cons a l ih =>
    rw [List.map_cons]
    show (match f (g a) with
          | none => none
          | some b =>
            match readList f (l.map g) with
            | none => none
            | some bs => some (b :: bs)) = some (a :: l)
    rw [h a (List.mem_cons_self a l),
        ih (fun x hx => h x (List.mem_cons_of_mem a hx))]

/-- Helper: reading back one serialized archive entry recovers it. -/
theorem jsonToEntry_entryToJson (e : PoetryArchiveEntry) :
    jsonToEntry (entryToJson e) = some e := by
  rcases e with ⟨po, pk, st, g⟩
  have hr := readList_map jsonToPacket packetToJson pk
    (fun p _ => jsonToPacket_packetToJson p)
  simp [entryToJson, jsonToEntry, hr]

/-- Claim C9: persisting an in-memory archive with save_archive and
reloading the persisted artifact reproduces the same entries
field-for-field: for each key, the poetry text, the packet field-maps,
the style identifier and the generation timestamp of the reloaded entry
equal those of the in-memory entry.  The reload side is modelled from
the spec (the repository ships no loader). -/
theorem C9_roundtrip (archive : List (String × PoetryArchiveEntry)) :
    load_archive (save_archive archive) = some archive := by
  show readList _ (archive.map (fun kv => (kv.1, entryToJson kv.2))) = some archive
  apply readList_map
  intro kv _
  show (match jsonToEntry (entryToJson kv.2) with
        | none => none
        | some e => some (kv.1, e)) = some kv
  rw [jsonToEntry_entryToJson]

/-- Witness for C9_roundtrip at a concrete one-entry archive. -/
theorem C9_roundtrip_witness :
    load_archive (save_archive [("T1", ⟨"poem", [p1, rNoPorts], "pessoa", "T1"⟩)]) =
      some [("T1", ⟨"poem", [p1, rNoPorts], "pessoa", "T1"⟩)] :=
  C9_roundtrip [("T1", ⟨"poem", [p1, rNoPorts], "pessoa", "T1"⟩)]

/-- Helper: dict assignment of an entry stored under its own
generated_at preserves the archive key invariant. -/
theorem archiveInv_dictInsert (a : List (String × PoetryArchiveEntry)) (k : String)
    (v : PoetryArchiveEntry) (h : ArchiveInv a) (hv : v.generated_at = k) :
    ArchiveInv (dictInsert a k v) := by
  intro kv hkv
  unfold dictInsert at hkv
  by_cases hany : (a.any (fun p => p.1 == k)) = true
  · rw [if_pos hany] at hkv
    obtain ⟨p, hp, hpe⟩ := List.mem_map.mp hkv
    by_cases hpk : (p.1 == k) = true
    · rw [if_pos hpk] at hpe
      rw [← hpe]
      simpa using hv
    · rw [if_neg hpk] at hpe
      rw [← hpe]
      exact h p hp
  · rw [if_neg hany] at hkv
    rcases List.mem_append.mp hkv with hin | hin
    · exact h kv hin
    · have hkv2 : kv = (k, v) := by simpa using hin
      cases hkv2
      simpa using hv

/-- Helper: every enabled transition preserves the archive key
invariant — the only write keys an entry by its own generated_at. -/
theorem step_archiveInv (style : PoetryStyle) (s s2 : SysState) (l : Label)
    (h : ArchiveInv s.poetry_archive) (hstep : step style s l = some s2) :
    ArchiveInv s2.poetry_archive := by
  cases l with
  | append p =>
    simp only [step] at hstep
    cases hstep
    exact h
  | poll =>
    simp only [step] at hstep
    split at hstep
    · split at hstep
      · cases hstep
        exact h
      · cases hstep
        exact h
    · exact Option.noConfusion hstep
  | finish r t =>
    simp only [step] at hstep
    split at hstep
    · cases hstep
      exact archiveInv_dictInsert _ _ _ h rfl
    · exact Option.noConfusion hstep

/-- Helper: the archive key invariant is preserved along every run. -/
theorem run_archiveInv (style : PoetryStyle) (labels : List Label) (s s2 : SysState)
    (h : ArchiveInv s.poetry_archive) (hrun : run style s labels = some s2) :
    ArchiveInv s2.poetry_archive := by
  induction labels generalizing s with
  | nil =>
    cases hrun
    exact h
  | cons l ls ih =>
    simp only [run] at hrun
    split at hrun
    · next s3 hstep =>
      exact ih s3 (step_archiveInv style s s3 l h hstep) hrun
    · exact Option.noConfusion hrun

/-- Claim C10: the archive key consistency invariant — every entry is
stored under its own generated_at timestamp — holds after every run
from a state satisfying it (every archive write uses
entry.generated_at as the key), and carries over to the persisted
artifact: each serialized object in the saved mapping has a
generated_at field equal to its key. -/
theorem C10_archive_key_invariant (style : PoetryStyle) (labels : List Label)
    (s s2 : SysState) (h0 : ArchiveInv s.poetry_archive)
    (hrun : run style s labels = some s2) :
    ArchiveInv s2.poetry_archive ∧
    ∀ fld ∈ (save_archive s2.poetry_archive).objFields,
      fld.2.getField "generated_at" = some (.str fld.1) := by
  have hinv := run_archiveInv style labels s s2 h0 hrun
  refine ⟨hinv, ?_⟩
  intro fld hfld
  simp only [save_archive, Json.objFields] at hfld
  obtain ⟨kv, hkv, hkveq⟩ := List.mem_map.mp hfld
  cases hkveq
  have hg : (entryToJson kv.2).getField "generated_at" =
      some (.str kv.2.generated_at) := rfl
  rw [hg, hinv kv hkv]

/-- Witness for C10_archive_key_invariant on a concrete one-drain run. -/
theorem C10_archive_key_invariant_witness :
    ArchiveInv state5.poetry_archive ∧
    run PoetryStyle.pessoa state5 [Label.poll, Label.finish (Except.error "x") "T9"] =
      some ⟨[], [("T9", ⟨"Error generating poetic response",
                         [p1, p2, p3, p4, p5], "pessoa", "T9"⟩)], .polling⟩ ∧
    (ArchiveInv (⟨[], [("T9", ⟨"Error generating poetic response",
                               [p1, p2, p3, p4, p5], "pessoa", "T9"⟩)],
                  .polling⟩ : SysState).poetry_archive ∧
     ∀ fld ∈ (save_archive (⟨[], [("T9", ⟨"Error generating poetic response",
                  [p1, p2, p3, p4, p5], "pessoa", "T9"⟩)],
                  .polling⟩ : SysState).poetry_archive).objFields,
       fld.2.getField "generated_at" = some (.str fld.1)) :=
  ⟨by simp [ArchiveInv, state5], by decide,
   C10_archive_key_invariant PoetryStyle.pessoa
     [Label.poll, Label.finish (Except.error "x") "T9"] state5 _
     (by simp [ArchiveInv, state5]) (by decide)⟩

end PoetryNetPackets
